import Mathlib

/-!
Verification development for the multi-session remote-control console
(`TEST.py`, class `ShellApp`) and the single-session variant
(`TCP_server.py`) of the Stealth_Key repository.

Bytes are modelled as naturals 0..255; a received chunk is a `List Nat`.
Each Python handler is embedded as a pure Lean function on an explicit
state record; nondeterministic I/O outcomes (what `recv` returned,
whether `send` raised) are passed in as event lists / flags.
-/

namespace StealthKey

/-- One byte, as a natural number in `0..255`. -/
abbrev Byte := Nat

/-- One iteration's receive event for a session's receive loop:
`none` models `conn.recv` raising an exception, `some data` models it
returning `data` (the empty list is a zero-length read, which the code
turns into `ConnectionError`).  The `Bool` component records whether
`client == self.active_client` held at the moment of that receipt. -/
abbrev RecvEvent := Option (List Byte) × Bool

/-- Observable state of one session's resources, as mutated by
`ShellApp.receive_output`: the bytes accumulated in its log file, the
chunks forwarded to the UI log widget, whether `conn.close()` and
`log_file.close()` have run, and whether the handler exited the whole
process (which the code of `receive_output` never does; contrast
`shellreceiver` in `TCP_server.py`). -/
structure SessionSt where
  log : List Byte
  ui : List (List Byte)
  connClosed : Bool
  logClosed : Bool
  processExited : Bool
deriving DecidableEq

/-- Session resources as they stand when the receive loop is armed. -/
def initSession : SessionSt :=
  { log := [], ui := [], connClosed := false, logClosed := false,
    processExited := false }

/-- One iteration of the `while True` loop of `ShellApp.receive_output`
(src/TEST.py lines 59-75):

    data = client.conn.recv(6048)
    if not data: raise ConnectionError
    if client == self.active_client:
        <write decoded data to the shell_log widget>
        client.log_file.write(data)
        client.log_file.write(b"\n")
        client.log_file.flush()
    # except: client.conn.close(); client.log_file.close(); break

After the `break` the loop body never runs again; the guard on
`st.connClosed` makes the fold over a finite event list total while
agreeing with the source on every event the loop actually processes. -/
def receiveStep (st : SessionSt) (ev : RecvEvent) : SessionSt :=
  if st.connClosed then st
  else
    match ev.1 with
    | none => { st with connClosed := true, logClosed := true }
    | some data =>
      if data.isEmpty then { st with connClosed := true, logClosed := true }
      else if ev.2 then
        { st with ui := st.ui ++ [data], log := st.log ++ data ++ [10] }
      else st

/-- `ShellApp.receive_output` run over a finite trace of receive events. -/
def receive_output (evs : List RecvEvent) : SessionSt :=
  evs.foldl receiveStep initSession

/-- Reference description of the log-file contents: the concatenation of
`chunk ++ [10]` over exactly those nonempty chunks that were received
while the session was the active selection, cut off at the first recv
failure or zero-length read. -/
def logSinkRef : List RecvEvent → List Byte
  | [] => []
  | (none, _) :: _ => []
  | (some data, act) :: rest =>
    if data.isEmpty then []
    else if act then data ++ [10] ++ logSinkRef rest
    else logSinkRef rest

/-- Once the loop has broken out (connection closed), later events in the
trace change nothing. -/
theorem foldl_receiveStep_closed (evs : List RecvEvent) (st : SessionSt)
    (h : st.connClosed = true) : evs.foldl receiveStep st = st := by
  induction evs with
  | nil => rfl
  | cons e evs ih =>
    have hstep : receiveStep st e = st := by
      simp [receiveStep, h]
    simp [List.foldl, hstep, ih]

/-- Generalized log-contents computation for `receive_output`. -/
theorem foldl_receiveStep_log (evs : List RecvEvent) (st : SessionSt)
    (h : st.connClosed = false) :
    (evs.foldl receiveStep st).log = st.log ++ logSinkRef evs := by
  induction evs generalizing st with
  | nil => simp [logSinkRef]
  | cons e evs ih =>
    obtain ⟨od, act⟩ := e
    match od with
    | none =>
      have hstep : receiveStep st (none, act) =
          { st with connClosed := true, logClosed := true } := by
        simp [receiveStep, h]
      have hcl := foldl_receiveStep_closed evs
        { st with connClosed := true, logClosed := true } rfl
      rw [List.foldl_cons, hstep, hcl]
      simp [logSinkRef]
    | some data =>
      by_cases hd : data.isEmpty
      · have hstep : receiveStep st (some data, act) =
            { st with connClosed := true, logClosed := true } := by
          simp [receiveStep, h, hd]
        have hcl := foldl_receiveStep_closed evs
          { st with connClosed := true, logClosed := true } rfl
        rw [List.foldl_cons, hstep, hcl]
        simp [logSinkRef, hd]
      · by_cases ha : act
        · have hstep : receiveStep st (some data, act) =
              { st with ui := st.ui ++ [data],
                        log := st.log ++ data ++ [10] } := by
            simp [receiveStep, h, hd, ha]
          have hih := ih { st with ui := st.ui ++ [data],
                                   log := st.log ++ data ++ [10] } h
          rw [List.foldl_cons, hstep, hih]
          simp [logSinkRef, hd, ha]
        · have hstep : receiveStep st (some data, act) = st := by
            simp [receiveStep, h, hd, ha]
          rw [List.foldl_cons, hstep, ih _ h]
          simp [logSinkRef, hd, ha]

/-- C1 counterexample: a nonempty chunk (byte `65`) received while the
session is NOT the active selection is dropped entirely — the log stays
empty even though the session is not closed.  The claim says the chunk
is appended regardless of selection. -/
theorem receive_unselected_chunk_not_logged :
    (receive_output [(some [65], false)]).log = [] ∧
    (receive_output [(some [65], false)]).connClosed = false := by
  constructor <;> rfl

/-- C1 (amended): a nonempty chunk received while the session IS the
active selection and the connection is not yet closed is appended to the
log sink at the end, followed by one separator byte `10`; chunks
received while unselected are not logged. -/
theorem receive_selected_chunk_appended (evs : List RecvEvent)
    (d : List Byte) (h : (receive_output evs).connClosed = false)
    (hd : d ≠ []) :
    (receive_output (evs ++ [(some d, true)])).log =
      (receive_output evs).log ++ d ++ [10] ∧
    (receive_output (evs ++ [(some d, false)])).log =
      (receive_output evs).log := by
  have hde : d.isEmpty = false := by
    cases d with
    | nil => exact absurd rfl hd
    | cons a l => rfl
  constructor
  · rw [receive_output, List.foldl_append]
    show (receiveStep (receive_output evs) (some d, true)).log = _
    simp [receiveStep, h, hde]
  · rw [receive_output, List.foldl_append]
    show (receiveStep (receive_output evs) (some d, false)).log = _
    simp [receiveStep, h, hde]

/-- Witness for C1 (amended) at a concrete trace. -/
theorem receive_selected_chunk_appended_wit :
    (receive_output [(some [65], true), (some [66], true)]).log =
      (receive_output [(some [65], true)]).log ++ [66] ++ [10] ∧
    (receive_output [(some [65], true), (some [66], false)]).log =
      (receive_output [(some [65], true)]).log :=
  receive_selected_chunk_appended [(some [65], true)] [66]
    (by rfl) (by simp)

/-- C2 counterexample: a single chunk `[72]` received while selected
leaves log contents `[72, 10]`, not the exact concatenation `[72]` —
the code inserts an extra `b"\n"` after every chunk. -/
theorem log_not_exact_concat :
    (receive_output [(some [72], true)]).log = [72, 10] ∧
    (receive_output [(some [72], true)]).log ≠ [72] := by
  constructor
  · rfl
  · simp [receive_output, receiveStep, initSession, List.foldl]

/-- C2 (amended): for every finite receive trace, the final log contents
equal the concatenation, in receipt order, of `chunk ++ [10]` over
exactly those nonempty chunks received while the session was the active
selection, cut off at the first receive failure or end-of-stream;
chunks received while unselected never reach the log. -/
theorem receive_output_log_eq_ref (evs : List RecvEvent) :
    (receive_output evs).log = logSinkRef evs := by
  have h := foldl_receiveStep_log evs initSession rfl
  simpa [receive_output, initSession] using h

/-- One entry of `ShellApp.clients` (class `ClientConnection` plus the
observable effects on its socket and log file).  `cid` stands for Python
object identity, so that `self.active_client`, which holds a reference
to the same object, is modelled as an optional `cid`.  `sent` records
each string passed to `conn.send` (as `cmd`, before `.encode()`; UTF-8
encoding is injective, so string equality captures byte equality). -/
structure ClientConnection where
  cid : Nat
  host : String
  port : Nat
  connClosed : Bool
  logClosed : Bool
  sent : List String
deriving DecidableEq

/-- Observable state of the `ShellApp` instance: the client list, the
`active_client` reference (by `cid`), the lines written to the
`#shell_log` widget, the text of the `#cmd_input` widget, and a count of
how many times `conn.send` was invoked (attempted writes, whether or not
they raised). -/
structure ShellApp where
  clients : List ClientConnection
  activeClient : Option Nat
  shellLog : List String
  inputValue : String
  sendAttempts : Nat
deriving DecidableEq

/-- Resolve an object reference: the client in `app.clients` whose
identity is `cid`. -/
def findClient (app : ShellApp) (cid : Nat) : Option ClientConnection :=
  app.clients.find? (fun c => c.cid == cid)

/-- Mutate, in place, the client object with identity `cid`. -/
def updateClient (app : ShellApp) (cid : Nat)
    (f : ClientConnection → ClientConnection) : ShellApp :=
  { app with clients :=
      app.clients.map (fun c => if c.cid == cid then f c else c) }

/-- The `except` branch of `ShellApp.receive_output` as it acts on the
app (src/TEST.py lines 71-75): `client.conn.close()` and
`client.log_file.close()`.  Note that it does NOT touch
`self.active_client` — no code in `TEST.py` ever resets the selection on
session closure. -/
def receiveOutputClose (app : ShellApp) (cid : Nat) : ShellApp :=
  updateClient app cid
    (fun c => { c with connClosed := true, logClosed := true })

/-- The notice written by the dispatcher's `except` branch. -/
def sendFailNotice : String := "[ERROR] Failed to send command.\n"

/-- Python's whitespace predicate for `str` (what `str.strip()` with no
argument removes): the characters CPython's `Py_UNICODE_ISSPACE` holds
for — `\t \n \v \f \r` (U+0009..U+000D), U+001C..U+001F, space, NEL
(U+0085), NBSP (U+00A0), Ogham space mark (U+1680), U+2000..U+200A,
line/paragraph separator (U+2028, U+2029), narrow no-break space
(U+202F), medium mathematical space (U+205F) and ideographic space
(U+3000). -/
def pyIsSpace (c : Char) : Bool :=
  (Nat.ble 0x09 c.toNat && Nat.ble c.toNat 0x0D) ||
  (Nat.ble 0x1C c.toNat && Nat.ble c.toNat 0x1F) ||
  c.toNat == 0x20 || c.toNat == 0x85 || c.toNat == 0xA0 ||
  c.toNat == 0x1680 ||
  (Nat.ble 0x2000 c.toNat && Nat.ble c.toNat 0x200A) ||
  c.toNat == 0x2028 || c.toNat == 0x2029 || c.toNat == 0x202F ||
  c.toNat == 0x205F || c.toNat == 0x3000

/-- Python `str.strip()`: remove leading and trailing whitespace
characters, per `pyIsSpace` (embedded structurally over the string's
character list so that it evaluates by kernel reduction). -/
def pyStrip (s : String) : String :=
  String.mk
    (((s.data.dropWhile pyIsSpace).reverse.dropWhile pyIsSpace).reverse)

/-- `ShellApp.on_input_submitted` (src/TEST.py lines 83-91):

    if not self.active_client: return
    cmd = event.value.strip() + "\n"
    try:
        self.active_client.conn.send(cmd.encode())
        self.query_one("#cmd_input", Input).value = ""
    except:
        self.query_one("#shell_log", Log).write("[ERROR] Failed to send command.\n")

`sendOk` is the network outcome of `conn.send` on an open socket;
`send` on an already-closed socket always raises, so the `except` branch
runs when `c.connClosed || !sendOk`.  `sendAttempts` is bumped whenever
`conn.send` is invoked at all. -/
def on_input_submitted (app : ShellApp) (value : String) (sendOk : Bool) :
    ShellApp :=
  match app.activeClient with
  | none => app
  | some cid =>
    match findClient app cid with
    | none => app
    | some c =>
      let cmd := pyStrip value ++ "\n"
      let app1 : ShellApp := { app with sendAttempts := app.sendAttempts + 1 }
      if c.connClosed || !sendOk then
        { app1 with shellLog := app1.shellLog ++ [sendFailNotice] }
      else
        { (updateClient app1 cid (fun c => { c with sent := c.sent ++ [cmd] }))
            with inputValue := "" }

/-- `ShellApp.on_list_view_selected` (src/TEST.py lines 77-81):

    selected_index = event.index
    self.active_client = self.clients[selected_index]
    self.query_one("#shell_log", Log).clear()
    self.query_one("#shell_log", Log).write(f"Connected to ...\n")

An out-of-range index makes `self.clients[selected_index]` raise
`IndexError`, which nothing catches (`Except.error`).  There is no check
of the chosen client's state: closed clients stay in `self.clients`
forever and are selected like any other. -/
def on_list_view_selected (app : ShellApp) (idx : Nat) :
    Except String ShellApp :=
  match app.clients.get? idx with
  | none => .error "IndexError"
  | some c =>
    .ok { app with activeClient := some c.cid,
                   shellLog := ["Connected to " ++ c.host ++ "...\n"] }

/-- The bytes written by `conn.send` in `shellsender`
(src/TCP_server.py lines 34-42): `(mycmd + "\n").encode()` — no
stripping in this variant. -/
def shellsender_send (mycmd : String) : String := mycmd ++ "\n"

/-- Sent-command history of the client with identity `cid`. -/
def sentOf (app : ShellApp) (cid : Nat) : List String :=
  match findClient app cid with
  | none => []
  | some c => c.sent

/-- A demo app: one open client, object identity `0`, endpoint
`10.0.0.1:4444`, currently the active selection. -/
def demoClient : ClientConnection :=
  { cid := 0, host := "10.0.0.1", port := 4444,
    connClosed := false, logClosed := false, sent := [] }

def demoApp : ShellApp :=
  { clients := [demoClient], activeClient := some 0,
    shellLog := [], inputValue := "", sendAttempts := 0 }

/-- The demo app with no selection made yet. -/
def demoAppUnbound : ShellApp := { demoApp with activeClient := none }

/-- The demo app after its only client's connection closed (the
receive loop's `except` branch ran). -/
def demoAppClosed : ShellApp := receiveOutputClose demoApp 0

/-- The demo client after closure. -/
def demoClosedClient : ClientConnection :=
  { demoClient with connClosed := true, logClosed := true }

/-- The closed demo app with no selection made. -/
def demoAppClosedUnbound : ShellApp :=
  { demoAppClosed with activeClient := none }

/-- `find?` after an identity-preserving in-place update of the matching
element. -/
theorem find_map_if (cs : List ClientConnection) (cid : Nat)
    (f : ClientConnection → ClientConnection)
    (hf : ∀ c, (f c).cid = c.cid) :
    (cs.map (fun c => if c.cid == cid then f c else c)).find?
        (fun c => c.cid == cid)
      = (cs.find? (fun c => c.cid == cid)).map f := by
  induction cs with
  | nil => rfl
  | cons c cs ih =>
    by_cases h : c.cid = cid
    · rw [List.map_cons, if_pos (by simp [h]),
        List.find?_cons_of_pos _ (by simp [hf, h]),
        List.find?_cons_of_pos _ (by simp [h])]
      rfl
    · rw [List.map_cons, if_neg (by simp [h]),
        List.find?_cons_of_neg _ (by simp [h]),
        List.find?_cons_of_neg _ (by simp [h])]
      exact ih

/-- Resolving a reference after `updateClient` returns the updated
object. -/
theorem findClient_updateClient (app : ShellApp) (cid : Nat)
    (f : ClientConnection → ClientConnection)
    (hf : ∀ c, (f c).cid = c.cid) :
    findClient (updateClient app cid f) cid = (findClient app cid).map f :=
  find_map_if app.clients cid f hf

/-- Sent history after recording one more command on client `cid`. -/
theorem sentOf_updateClient_append (app : ShellApp) (cid : Nat)
    (c : ClientConnection) (cmd : String)
    (h2 : findClient app cid = some c) :
    sentOf (updateClient app cid
        (fun x => { x with sent := x.sent ++ [cmd] })) cid
      = c.sent ++ [cmd] := by
  unfold sentOf
  rw [findClient_updateClient app cid
    (fun x => { x with sent := x.sent ++ [cmd] }) (fun x => rfl), h2]
  rfl

/-- C9 counterexample: a dispatch while no session is selected leaves
the app completely unchanged — in particular nothing is written to the
shell log, so no user-visible "no active session" outcome is produced
(the claim asserts one is). -/
theorem dispatch_unbound_silent_cex :
    on_input_submitted demoAppUnbound "whoami" true = demoAppUnbound ∧
    demoAppUnbound.shellLog = [] ∧
    demoAppUnbound.sendAttempts = 0 :=
  ⟨rfl, rfl, rfl⟩

/-- C9 (amended): a dispatch while the selection is Unbound performs no
network write and produces no user-visible outcome at all: the handler
silently returns, leaving the app state unchanged. -/
theorem dispatch_unbound_noop (app : ShellApp) (value : String)
    (sendOk : Bool) (h : app.activeClient = none) :
    on_input_submitted app value sendOk = app := by
  simp [on_input_submitted, h]

/-- Witness for C9 (amended) at the concrete unbound demo app. -/
theorem dispatch_unbound_noop_wit :
    on_input_submitted demoAppUnbound "dir" false = demoAppUnbound :=
  dispatch_unbound_noop demoAppUnbound "dir" false rfl

/-- C3 counterexample: after the bound session's receive loop closes it,
the selection still references it (`some 0`, not `none`), and a
subsequent dispatch invokes `conn.send` on the closed connection
(`sendAttempts` becomes 1) and reports the failed-to-send notice rather
than a no-active-session outcome. -/
theorem close_then_dispatch_stale_write_cex :
    demoAppClosed.activeClient = some 0 ∧
    (on_input_submitted demoAppClosed "whoami" true).sendAttempts = 1 ∧
    (on_input_submitted demoAppClosed "whoami" true).shellLog =
      [sendFailNotice] ∧
    (on_input_submitted demoAppClosed "whoami" true).activeClient =
      some 0 :=
  ⟨rfl, rfl, rfl, rfl⟩

/-- C3 (amended): session closure does not clear the selection; a
dispatch issued after the bound session closed still attempts the write
(`conn.send` is invoked once more), which raises, so the only effects
are the incremented attempt count and the failed-to-send notice — the
client list (hence the closed session's state) and the selection are
unchanged, and no bytes are delivered. -/
theorem close_then_dispatch_fails (app : ShellApp) (cid : Nat)
    (c : ClientConnection) (value : String) (sendOk : Bool)
    (h1 : app.activeClient = some cid)
    (h2 : findClient app cid = some c) (h3 : c.connClosed = true) :
    on_input_submitted app value sendOk =
      { app with sendAttempts := app.sendAttempts + 1,
                 shellLog := app.shellLog ++ [sendFailNotice] } := by
  simp [on_input_submitted, h1, h2, h3]

/-- Witness for C3 (amended) at the closed demo app. -/
theorem close_then_dispatch_fails_wit :
    on_input_submitted demoAppClosed "dir" true =
      { demoAppClosed with
          sendAttempts := demoAppClosed.sendAttempts + 1,
          shellLog := demoAppClosed.shellLog ++ [sendFailNotice] } :=
  close_then_dispatch_fails demoAppClosed 0 demoClosedClient "dir" true
    rfl rfl rfl

/-- C4 counterexample: a write failure on the open bound session leaves
that session's connection open (`demoClient` unchanged, state not
Closed) and the selection still Bound (`some 0`); the only effect
besides the attempt count is the failed-to-send notice. -/
theorem write_failure_not_terminal_cex :
    (on_input_submitted demoApp "whoami" false).activeClient = some 0 ∧
    findClient (on_input_submitted demoApp "whoami" false) 0 =
      some demoClient ∧
    demoClient.connClosed = false ∧
    (on_input_submitted demoApp "whoami" false).shellLog =
      [sendFailNotice] :=
  ⟨rfl, rfl, rfl, rfl⟩

/-- C4 (amended): on write failure the dispatcher's whole error handling
is the failed-to-send notice: the target session's connection is not
closed, its state does not transition, and the selection remains Bound;
only the attempt count and the shell log change. -/
theorem write_failure_notice_only (app : ShellApp) (cid : Nat)
    (c : ClientConnection) (value : String)
    (h1 : app.activeClient = some cid)
    (h2 : findClient app cid = some c) :
    on_input_submitted app value false =
      { app with sendAttempts := app.sendAttempts + 1,
                 shellLog := app.shellLog ++ [sendFailNotice] } := by
  simp [on_input_submitted, h1, h2]

/-- Witness for C4 (amended) at the open demo app. -/
theorem write_failure_notice_only_wit :
    on_input_submitted demoApp "whoami" false =
      { demoApp with sendAttempts := demoApp.sendAttempts + 1,
                     shellLog := demoApp.shellLog ++ [sendFailNotice] } :=
  write_failure_notice_only demoApp 0 demoClient "whoami" rfl rfl

/-- C6 counterexample: the list entry at index 0 is a Closed session,
the selection is `none` beforehand, yet selecting index 0 changes the
selection to that closed session and writes the normal "Connected to"
banner — not a no-op, and no error is reported. -/
theorem select_closed_changes_selection_cex :
    demoAppClosedUnbound.clients.get? 0 = some demoClosedClient ∧
    demoClosedClient.connClosed = true ∧
    demoAppClosedUnbound.activeClient = none ∧
    on_list_view_selected demoAppClosedUnbound 0 =
      .ok { demoAppClosedUnbound with
              activeClient := some 0,
              shellLog := ["Connected to 10.0.0.1...\n"] } :=
  ⟨rfl, rfl, rfl, rfl⟩

/-- C6 (amended): `select(idx)` performs no validity check at all: for
any in-range index — even one whose session is Closed — it sets the
selection to that session, clears the shell log and writes the
"Connected to" banner.  (An out-of-range index raises an uncaught
`IndexError` instead.) -/
theorem select_sets_selection_unconditionally (app : ShellApp)
    (idx : Nat) (c : ClientConnection)
    (h : app.clients.get? idx = some c) (hc : c.connClosed = true) :
    on_list_view_selected app idx =
      .ok { app with activeClient := some c.cid,
                     shellLog := ["Connected to " ++ c.host ++ "...\n"] } := by
  unfold on_list_view_selected
  rw [h]

/-- Witness for C6 (amended) at the closed, unbound demo app. -/
theorem select_sets_selection_unconditionally_wit :
    on_list_view_selected demoAppClosedUnbound 0 =
      .ok { demoAppClosedUnbound with
              activeClient := some demoClosedClient.cid,
              shellLog :=
                ["Connected to " ++ demoClosedClient.host ++ "...\n"] } :=
  select_sets_selection_unconditionally demoAppClosedUnbound 0
    demoClosedClient rfl rfl

/-- C7 counterexample: dispatching `"whoami "` (trailing space) while
Bound to the open demo client delivers `"whoami\n"` — Python's
`.strip()` removed the space — not the operator's literal text plus the
terminator, which would be `"whoami \n"`. -/
theorem dispatch_strips_text_cex :
    sentOf (on_input_submitted demoApp "whoami " true) 0 =
      ["whoami" ++ "\n"] ∧
    ("whoami" ++ "\n") ≠ ("whoami " ++ "\n") := by
  refine ⟨rfl, by decide⟩

/-- C7 (amended): a successful dispatch while Bound writes exactly the
operator's text with leading and trailing whitespace stripped, plus one
trailing line terminator, and clears the input box; for whitespace-free
text such as `"whoami"` this is exactly `text ++ "\n"` (the
`TCP_server.py` variant `shellsender` sends the unstripped
`mycmd ++ "\n"`). -/
theorem dispatch_sends_trimmed (app : ShellApp) (cid : Nat)
    (c : ClientConnection) (value : String)
    (h1 : app.activeClient = some cid)
    (h2 : findClient app cid = some c) (h3 : c.connClosed = false) :
    sentOf (on_input_submitted app value true) cid =
      c.sent ++ [pyStrip value ++ "\n"] ∧
    (on_input_submitted app value true).inputValue = "" ∧
    shellsender_send value = value ++ "\n" := by
  have hstep : on_input_submitted app value true =
      { (updateClient { app with sendAttempts := app.sendAttempts + 1 }
          cid (fun x => { x with sent := x.sent ++ [pyStrip value ++ "\n"] }))
          with inputValue := "" } := by
    simp [on_input_submitted, h1, h2, h3]
  refine ⟨?_, ?_, rfl⟩
  · rw [hstep]
    exact sentOf_updateClient_append
      { app with sendAttempts := app.sendAttempts + 1 } cid c
      (pyStrip value ++ "\n") h2
  · rw [hstep]

/-- Witness for C7 (amended): the spec's own scenario, `"whoami"`. -/
theorem dispatch_sends_trimmed_wit :
    sentOf (on_input_submitted demoApp "whoami" true) 0 =
      demoClient.sent ++ [pyStrip "whoami" ++ "\n"] ∧
    (on_input_submitted demoApp "whoami" true).inputValue = "" ∧
    shellsender_send "whoami" = "whoami" ++ "\n" :=
  dispatch_sends_trimmed demoApp 0 demoClient "whoami" rfl rfl rfl

/-- Final state of the listener thread: the endpoints for which a
`ClientConnection` was created and registered, and whether the thread
has died (an uncaught exception escaped `listen_for_clients`). -/
structure ListenerSt where
  accepted : List (String × Nat)
  threadDied : Bool
deriving DecidableEq

/-- The `while True` accept loop of `ShellApp.listen_for_clients`
(src/TEST.py lines 47-52):

    while True:
        conn, addr = s.accept()
        client = ClientConnection(conn, addr)
        self.clients.append(client)
        self.call_from_thread(self.add_client_to_ui, client)
        threading.Thread(target=self.receive_output, ...).start()

There is no try/except anywhere in this function, so the first `accept`
(or registration) failure — modelled as a `none` event — propagates out
of the loop and kills the daemon thread; the remaining events never
happen. -/
def acceptLoop : List (Option (String × Nat)) → List (String × Nat) →
    ListenerSt
  | [], acc => { accepted := acc, threadDied := false }
  | none :: _, acc => { accepted := acc, threadDied := true }
  | some a :: rest, acc => acceptLoop rest (acc ++ [a])

/-- `ShellApp.listen_for_clients` (src/TEST.py lines 40-53) over a
finite trace of accept outcomes.  `bindOk` is whether
`s.bind((host, port))` succeeded; a bind failure likewise propagates
uncaught and kills the listener thread before any accept. -/
def listen_for_clients (bindOk : Bool)
    (evs : List (Option (String × Nat))) : ListenerSt :=
  if bindOk then acceptLoop evs [] else { accepted := [], threadDied := true }

/-- Accumulator lemma for the accept loop over successful accepts. -/
theorem acceptLoop_map_some (pre : List (String × Nat))
    (post : List (Option (String × Nat))) (acc : List (String × Nat)) :
    acceptLoop (pre.map some ++ post) acc = acceptLoop post (acc ++ pre) := by
  induction pre generalizing acc with
  | nil => simp
  | cons a pre ih =>
    rw [List.map_cons, List.cons_append]
    show acceptLoop (pre.map some ++ post) (acc ++ [a]) = _
    rw [ih]
    simp

/-- C8 counterexample: with one accept failure followed by one incoming
connection, the listener accepts nothing and the thread dies — the
failure is not confined to its iteration and the later connection is
never accepted. -/
theorem accept_failure_stops_listener_cex :
    listen_for_clients true [none, some ("203.0.113.5", 6)] =
      { accepted := [], threadDied := true } := rfl

/-- C8 (amended): the accept loop is NOT restart-safe per iteration:
it accepts connections only up to the first accept failure, at which
point the uncaught exception kills the listener thread and every later
connection is ignored; a bind failure likewise kills the listener
thread before any accept (in `TEST.py` the listener is a daemon thread,
so neither failure is reported to the caller nor logged). -/
theorem accept_failure_kills_listener (pre : List (String × Nat))
    (post : List (Option (String × Nat)))
    (evs : List (Option (String × Nat))) :
    listen_for_clients true (pre.map some ++ none :: post) =
      { accepted := pre, threadDied := true } ∧
    listen_for_clients true (pre.map some) =
      { accepted := pre, threadDied := false } ∧
    listen_for_clients false evs =
      { accepted := [], threadDied := true } := by
  refine ⟨?_, ?_, rfl⟩
  · show acceptLoop (pre.map some ++ none :: post) [] = _
    rw [acceptLoop_map_some]
    rfl
  · show acceptLoop (pre.map some) [] = _
    rw [show pre.map some = pre.map some ++ [] by simp,
      acceptLoop_map_some]
    rfl

/-- Final state of the single-connection server of `TCP_server.py`:
what `shellreceiver` printed to the console, and whether it closed the
connection and called `os._exit(0)`. -/
structure TcpSrvSt where
  printed : List (List Byte)
  connClosed : Bool
  processExited : Bool
deriving DecidableEq

/-- `shellreceiver` (src/TCP_server.py lines 21-31) over a finite trace
of recv outcomes:

    while True:
        try:
            data = conn.recv(6042)
            if not data: raise ConnectionError
            print(data.decode(errors="ignore"), end="", flush=True)
        except:
            print("...Connection lost. Exiting...")
            conn.close()
            os._exit(0)

Any recv failure or zero-length read closes the connection and then
terminates the WHOLE process via `os._exit(0)` (`shellsender`'s except
branch does the same on send failure). -/
def shellreceiver : List (Option (List Byte)) → TcpSrvSt
  | [] => { printed := [], connClosed := false, processExited := false }
  | none :: _ => { printed := [], connClosed := true, processExited := true }
  | some data :: rest =>
    if data.isEmpty then
      { printed := [], connClosed := true, processExited := true }
    else
      let r := shellreceiver rest
      { r with printed := data :: r.printed }

/-- `receive_output` never exits the process, whatever the trace. -/
theorem foldl_receiveStep_processExited (evs : List RecvEvent)
    (st : SessionSt) :
    (evs.foldl receiveStep st).processExited = st.processExited := by
  induction evs generalizing st with
  | nil => rfl
  | cons e evs ih =>
    rw [List.foldl_cons, ih]
    rcases e with ⟨od, act⟩
    rcases od with _ | data <;> simp [receiveStep] <;> split_ifs <;> rfl

/-- C5 counterexample: in `TCP_server.py`, a single connection's receive
failure exits the whole process (`os._exit(0)`), so a session error is
process-fatal there — not only bind failure, and the process does not
keep running. -/
theorem session_error_exits_process_cex :
    (shellreceiver [none]).processExited = true ∧
    (shellreceiver [none]).connClosed = true :=
  ⟨rfl, rfl⟩

/-- C5 (amended): in the multi-session app (`TEST.py`) a session's
receive failure is confined to that session — the receive loop never
exits the process, and the closure touches neither the other registered
clients nor the selection; but in the single-session variant
(`TCP_server.py`) any connection failure exits the whole process. -/
theorem session_error_confined_in_app (evs : List RecvEvent)
    (app : ShellApp) (cid : Nat) (c : ClientConnection)
    (hc : c ∈ app.clients) (hne : c.cid ≠ cid)
    (tr : List (Option (List Byte))) :
    (receive_output evs).processExited = false ∧
    c ∈ (receiveOutputClose app cid).clients ∧
    (receiveOutputClose app cid).activeClient = app.activeClient ∧
    (shellreceiver (none :: tr)).processExited = true := by
  refine ⟨?_, ?_, rfl, rfl⟩
  · exact foldl_receiveStep_processExited evs initSession
  · exact List.mem_map.mpr ⟨c, hc, by simp [hne]⟩

/-- Witness for C5 (amended) at concrete inputs. -/
theorem session_error_confined_in_app_wit :
    (receive_output [(some [65], true)]).processExited = false ∧
    demoClient ∈ (receiveOutputClose demoApp 1).clients ∧
    (receiveOutputClose demoApp 1).activeClient = demoApp.activeClient ∧
    (shellreceiver (none :: [])).processExited = true :=
  session_error_confined_in_app [(some [65], true)] demoApp 1 demoClient
    (by simp [demoApp]) (by decide) []

/-- A file system: file name to current byte contents (a file that was
never written is the empty file, matching append-mode creation). -/
abbrev FileSys := String → List Byte

/-- The log-file name computed by `ClientConnection.__init__`:
`f"{addr[0]}_{addr[1]}.txt"`. -/
def logFileName (host : String) (port : Nat) : String :=
  host ++ "_" ++ toString port ++ ".txt"

/-- Python `open(name, mode)` for the binary modes relevant here:
`"wb"` truncates the named file, `"ab"` leaves all existing contents in
place and positions subsequent writes at the end. -/
def pyOpen (fs : FileSys) (name : String) (mode : String) : FileSys :=
  if mode = "wb" then fun n => if n = name then [] else fs n
  else fs

/-- The log-sink effect of `ClientConnection.__init__` (src/TEST.py
lines 12-17): `self.log_file = open(f"{addr[0]}_{addr[1]}.txt", "ab")`. -/
def clientLogOpen (fs : FileSys) (host : String) (port : Nat) : FileSys :=
  pyOpen fs (logFileName host port) "ab"

/-- `log_file.write(d)` on a file opened in append mode. -/
def fsWrite (fs : FileSys) (name : String) (d : List Byte) : FileSys :=
  fun n => if n = name then fs n ++ d else fs n

/-- C10: the log sink is the file `"{address}_{port}.txt"` opened with
mode `"ab"`; opening never truncates, so a later session with the same
remote endpoint opens the very same file and its writes land after the
earlier session's bytes: after session one writes `d1` and a second
same-endpoint session opens and writes `d2`, the shared file holds the
original contents followed by `d1 ++ d2`. -/
theorem same_endpoint_shares_append_log (fs : FileSys) (host : String)
    (port : Nat) (d1 d2 : List Byte) :
    clientLogOpen fs host port (logFileName host port) =
      fs (logFileName host port) ∧
    fsWrite (clientLogOpen
        (fsWrite (clientLogOpen fs host port) (logFileName host port) d1)
        host port)
      (logFileName host port) d2 (logFileName host port) =
      fs (logFileName host port) ++ d1 ++ d2 := by
  have hopen : ∀ g : FileSys, clientLogOpen g host port = g := by
    intro g
    unfold clientLogOpen pyOpen
    rw [if_neg (by decide)]
  refine ⟨by rw [hopen], ?_⟩
  rw [hopen, hopen]
  simp [fsWrite]

end StealthKey
